import Mathlib

/-!
Verification of the registration bot repository (src/bot.py, src/test-main/utils.py,
src/test-main/dispatch.py) against its natural-language specification.

The Python functions are shallowly embedded: pure string manipulation becomes Lean
functions over String / List Char; DOM, browser and mailbox effects are modelled by
explicit environments (oracles) passed to the embedded control flow; fallible calls
are modelled in an Except monad where an uncaught exception is an error value.
-/

namespace Bot

/-! ## Character and string utilities

Python str.strip() and JS String.trim() / regex \s are modelled over the common
whitespace characters (space, tab, LF, VT, FF, CR, and NBSP for JS).  Exotic
Unicode space characters are outside the model.
-/

/-- Whitespace recognized by Python str.strip(). -/
def isPyWS (c : Char) : Bool :=
  c = ' ' || c = '\t' || c = '\n' || c = '\r' || c = Char.ofNat 11 || c = Char.ofNat 12

/-- The non-breaking space character U+00A0. -/
def nbspChar : Char := Char.ofNat 160

/-- Whitespace recognized by the JS regex \s and String.prototype.trim. -/
def isJsWS (c : Char) : Bool := isPyWS c || c = nbspChar

/-- Drop characters satisfying p from both ends of a character list. -/
def trimBy (p : Char → Bool) (l : List Char) : List Char :=
  ((l.dropWhile p).reverse.dropWhile p).reverse

/-- Python str.strip(). -/
def pyStrip (s : String) : String := String.mk (trimBy isPyWS s.data)

/-- JS String.prototype.trim(). -/
def jsTrim (s : String) : String := String.mk (trimBy isJsWS s.data)

/-- Collapse runs of consecutive spaces to a single space. -/
def squeezeSpaces : List Char → List Char
  | [] => []
  | [a] => [a]
  | a :: b :: r =>
    if a = ' ' && b = ' ' then squeezeSpaces (b :: r) else a :: squeezeSpaces (b :: r)

/-- Replace each ampersand with the three characters of the word and. -/
def ampToAnd : List Char → List Char
  | [] => []
  | c :: cs => if c = '&' then 'a' :: 'n' :: 'd' :: ampToAnd cs else c :: ampToAnd cs

/-- Substring containment test on character lists: does hay contain needle? -/
def listContains (hay needle : List Char) : Bool :=
  (List.range (hay.length + 1)).any (fun i => needle.isPrefixOf (hay.drop i))

/-- Python membership of needle in hay / JS hay.includes(needle). -/
def strContains (hay needle : String) : Bool := listContains hay.data needle.data

/-- The normalize closure of select_option_by_text_safe (bot.py lines 293-298):
replace non-breaking spaces, collapse whitespace runs to one space, trim,
lowercase, and substitute each ampersand with the word and. -/
def normalizeJs (s : String) : String :=
  let step1 := s.data.map (fun c => if c = nbspChar then ' ' else c)
  let step2 := squeezeSpaces (step1.map (fun c => if isJsWS c then ' ' else c))
  let step3 := trimBy (fun c => c = ' ') step2
  String.mk (ampToAnd (step3.map Char.toLower))

/-! ## C1: the Option Matcher (select_option_by_text_safe, bot.py lines 279-324)

The script-injected matcher of select_option_by_text_safe receives the desired
label and the list of option label texts and picks an option in three tiers:
exact trimmed equality, normalized equality, then substring containment in
either direction under the same normalization.
-/

/-- The script-injected matcher of select_option_by_text_safe (bot.py lines
279-321), translated from the embedded JS: trim the raw target; refuse an empty
normalized target; then try exact trimmed match, normalized match, and
containment match in that order, each via Array.prototype.find (first hit in
option order). -/
def select_option_by_text_safe_match (raw : String) (options : List String) :
    Option String :=
  if normalizeJs (jsTrim raw) = "" then none
  else
    match options.find? (fun o => jsTrim o == jsTrim raw) with
    | some m => some m
    | none =>
      match options.find? (fun o => normalizeJs o == normalizeJs (jsTrim raw)) with
      | some m => some m
      | none =>
        options.find?
          (fun o => strContains (normalizeJs o) (normalizeJs (jsTrim raw))
                    || strContains (normalizeJs (jsTrim raw)) (normalizeJs o))

/-- The Option Matcher contract as the spec words it: a list of strategies is
attempted in order; the first strategy that yields a candidate wins, the single
accepted candidate being the first match of that strategy in option order; not-found
when no strategy matches. -/
def optionMatcherTiered (raw : String) (options : List String) : Option String :=
  [fun o => jsTrim o == jsTrim raw,
   fun o => normalizeJs o == normalizeJs (jsTrim raw),
   fun o => strContains (normalizeJs o) (normalizeJs (jsTrim raw))
            || strContains (normalizeJs (jsTrim raw)) (normalizeJs o)].findSome?
    (fun p => options.find? p)

/-- C1: for every desired label and list of available option labels, the Option
Matcher of select_option_by_text_safe attempts in order exact trimmed match,
normalized match (collapse whitespace, lowercase, non-breaking spaces, ampersand
to the word and), then substring containment in either direction under the same
normalization; the first strategy yielding a candidate wins with the single first
candidate of that strategy accepted and no scoring across strategies, and not-found
is returned when no strategy matches (in particular for an empty normalized
target).  Illustrated on the ampersand example from the spec. -/
theorem c1_option_matcher :
    (∀ raw options, normalizeJs (jsTrim raw) ≠ "" →
      select_option_by_text_safe_match raw options = optionMatcherTiered raw options)
    ∧ (∀ raw options, normalizeJs (jsTrim raw) = "" →
      select_option_by_text_safe_match raw options = none)
    ∧ select_option_by_text_safe_match "Athletics (Track & Field)"
        ["Select one", "Athletics (Track and Field)", "Basketball"]
        = some "Athletics (Track and Field)" := by
  refine ⟨?_, ?_, by decide⟩
  · intro raw options h
    simp only [select_option_by_text_safe_match, optionMatcherTiered, if_neg h,
      List.findSome?_cons, List.findSome?_nil]
    cases h1 : options.find? (fun o => jsTrim o == jsTrim raw) with
    | some m => rfl
    | none =>
      cases h2 : options.find? (fun o => normalizeJs o == normalizeJs (jsTrim raw)) with
      | some m => rfl
      | none =>
        cases h3 : options.find?
            (fun o => strContains (normalizeJs o) (normalizeJs (jsTrim raw))
                      || strContains (normalizeJs (jsTrim raw)) (normalizeJs o)) with
        | some m => rfl
        | none => rfl
  · intro raw options h
    simp only [select_option_by_text_safe_match, if_pos h]

/-- Witness for c1_option_matcher: the tier equivalence evaluated at a concrete
label and option list. -/
theorem c1_option_matcher_witness :
    select_option_by_text_safe_match "Basketball" ["Tennis", "Basketball"]
      = optionMatcherTiered "Basketball" ["Tennis", "Basketball"] :=
  c1_option_matcher.1 "Basketball" ["Tennis", "Basketball"] (by decide)

/-! ## C2: OTP extraction (test-main/utils.py lines 27-30)

The helper _extract_otp of get_otp takes body = msg.text or msg.html or ""
(Python truthiness: an empty text body falls through to the HTML body) and
returns the first match of the regex pattern of a backslash-b boundary, six
digits, and a closing boundary.  A word boundary holds at a position when the
character on the non-digit side is absent or not a word character
(alphanumeric or underscore); digits and word characters are modelled at ASCII
granularity.
-/

/-- Python regex word character (ASCII granularity). -/
def isWordChar (c : Char) : Bool := c.isAlphanum || c = '_'

/-- The six characters starting at position i all exist and are digits. -/
def sixDigitsAt (cs : List Char) (i : Nat) : Bool :=
  ((cs.drop i).take 6).length == 6 && ((cs.drop i).take 6).all Char.isDigit

/-- Position j holds no word character (out of range counts as no word char). -/
def noWordAt (cs : List Char) (j : Nat) : Bool :=
  match cs.get? j with
  | none => true
  | some c => !(isWordChar c)

/-- A standalone six-digit sequence starts at position i: six digits with a
word boundary on each side. -/
def otpAt (cs : List Char) (i : Nat) : Bool :=
  sixDigitsAt cs i && (i == 0 || noWordAt cs (i - 1)) && noWordAt cs (i + 6)

/-- Leftmost scan for a standalone six-digit sequence, starting at i with the
given fuel. -/
def scanOtp (cs : List Char) : Nat → Nat → Option Nat
  | _, 0 => none
  | i, fuel + 1 => if otpAt cs i = true then some i else scanOtp cs (i + 1) fuel

/-- Index of the leftmost standalone six-digit sequence, as re.search finds it. -/
def findOtpIdx (cs : List Char) : Option Nat := scanOtp cs 0 cs.length

/-- The six-character window starting at position i. -/
def otpStrAt (cs : List Char) (i : Nat) : String := String.mk ((cs.drop i).take 6)

/-- re.search of the standalone six-digit pattern over a string body, returning
the matched text. -/
def findOtp (s : String) : Option String := (findOtpIdx s.data).map (otpStrAt s.data)

/-- An email message as imap_tools presents it to utils.py. -/
structure MailMsg where
  from_ : Option String
  subject : Option String
  text : Option String
  html : Option String
deriving DecidableEq

/-- Python truthiness of an optional string: present and non-empty. -/
def truthyS : Option String → Bool
  | none => false
  | some s => s != ""

/-- The helper _extract_otp of get_otp (utils.py lines 27-30): search the text
body, or if falsy the HTML body, or the empty string, for the first standalone
six-digit sequence. -/
def extract_otp (m : MailMsg) : Option String :=
  findOtp (if truthyS m.text then m.text.getD ""
           else if truthyS m.html then m.html.getD "" else "")

theorem scanOtp_eq_some (cs : List Char) :
    ∀ fuel i j, scanOtp cs i fuel = some j →
      otpAt cs j = true ∧ i ≤ j ∧ ∀ k, i ≤ k → k < j → otpAt cs k = false := by
  intro fuel
  induction fuel with
  | zero => intro i j h; simp [scanOtp] at h
  | succ n ih =>
    intro i j h
    by_cases hi : otpAt cs i = true
    · rw [scanOtp, if_pos hi] at h
      cases h
      exact ⟨hi, Nat.le_refl i, fun k hk1 hk2 => absurd (Nat.lt_of_le_of_lt hk1 hk2) (Nat.lt_irrefl i)⟩
    · rw [scanOtp, if_neg hi] at h
      obtain ⟨h1, h2, h3⟩ := ih (i + 1) j h
      have hi' : otpAt cs i = false := Bool.eq_false_iff.mpr hi
      refine ⟨h1, by omega, fun k hk1 hk2 => ?_⟩
      rcases Nat.eq_or_lt_of_le hk1 with hk | hk
      · exact hk ▸ hi'
      · exact h3 k hk hk2

theorem scanOtp_eq_none (cs : List Char) :
    ∀ fuel i, scanOtp cs i fuel = none →
      ∀ k, i ≤ k → k < i + fuel → otpAt cs k = false := by
  intro fuel
  induction fuel with
  | zero => intro i _ k hk1 hk2; omega
  | succ n ih =>
    intro i h k hk1 hk2
    by_cases hi : otpAt cs i = true
    · rw [scanOtp, if_pos hi] at h; cases h
    · rw [scanOtp, if_neg hi] at h
      rcases Nat.eq_or_lt_of_le hk1 with hk | hk
      · exact hk ▸ Bool.eq_false_iff.mpr hi
      · exact ih (i + 1) h k hk (by omega)

theorem otpAt_of_length_le (cs : List Char) (k : Nat) (h : cs.length ≤ k) :
    otpAt cs k = false := by
  have hd : cs.drop k = [] := List.drop_eq_nil_of_le h
  simp [otpAt, sixDigitsAt, hd]

/-- C2: OTP extraction returns exactly the first standalone,
word-boundary-delimited six-digit sequence of the body; the text body is used
when it is present and non-empty, otherwise the HTML body; a body of nine
consecutive digits yields no match, and the body about code 482913 yields
exactly that code. -/
theorem c2_extract_otp_first_standalone :
    (∀ cs : List Char, ∀ j, findOtpIdx cs = some j →
      otpAt cs j = true ∧ ∀ k, k < j → otpAt cs k = false)
    ∧ (∀ cs : List Char, findOtpIdx cs = none → ∀ k, otpAt cs k = false)
    ∧ (∀ s, findOtp s = (findOtpIdx s.data).map (otpStrAt s.data))
    ∧ (∀ m : MailMsg, ∀ t, m.text = some t → t ≠ "" → extract_otp m = findOtp t)
    ∧ (∀ m : MailMsg, ∀ h, m.text = none ∨ m.text = some "" → m.html = some h →
        h ≠ "" → extract_otp m = findOtp h)
    ∧ findOtp "123456789" = none
    ∧ findOtp "your code is 482913." = some "482913" := by
  refine ⟨?_, ?_, fun _ => rfl, ?_, ?_, by decide, by decide⟩
  · intro cs j h
    obtain ⟨h1, _, h3⟩ := scanOtp_eq_some cs cs.length 0 j h
    exact ⟨h1, fun k hk => h3 k (Nat.zero_le k) hk⟩
  · intro cs h k
    by_cases hk : k < cs.length
    · exact scanOtp_eq_none cs cs.length 0 h k (Nat.zero_le k) (by omega)
    · exact otpAt_of_length_le cs k (by omega)
  · intro m t ht hne
    simp [extract_otp, truthyS, ht, hne]
  · intro m h ht hh hne
    rcases ht with ht | ht <;> simp [extract_otp, truthyS, ht, hh, hne]

/-- Witness for c2_extract_otp_first_standalone: the text-body clause applied
to a concrete message. -/
theorem c2_extract_otp_witness :
    extract_otp ⟨none, none, some "your code is 482913.", some "000000"⟩
      = findOtp "your code is 482913." :=
  c2_extract_otp_first_standalone.2.2.2.1
    ⟨none, none, some "your code is 482913.", some "000000"⟩
    "your code is 482913." rfl (by decide)

/-! ## C8: CSV row loading (bot.py lines 105-151)

normalize_field, resolve_column and load_row_by_index are embedded directly.
The CSV file is modelled as its parsed form: the header field names and the
rows as association lists from field name to cell value (what csv.DictReader
yields).  A missing file is the none input; distinct failure reasons are the
string codes the Python function returns.
-/

/-- normalize_field (bot.py lines 105-106): strip, lowercase, and replace
spaces and hyphens with underscores (both patterns are single characters, so
the two replace calls are one character map). -/
def normalize_field (s : String) : String :=
  String.mk (((trimBy isPyWS s.data).map Char.toLower).map
    (fun c => if c = ' ' then '_' else if c = '-' then '_' else c))

/-- Lookup in the normalized-name dictionary of resolve_column: the dict
comprehension keeps the last non-empty field name for each normalized key. -/
def lookupNormalized (fieldnames : List String) (key : String) : Option String :=
  ((fieldnames.filter (fun n => n != "")).reverse).find?
    (fun n => normalize_field n == key)

/-- resolve_column (bot.py lines 109-115): first candidate whose normalized
form appears among the normalized header names. -/
def resolve_column (fieldnames : List String) (candidates : List String) :
    Option String :=
  candidates.findSome? (fun c => lookupNormalized fieldnames (normalize_field c))

/-- Python row.get(key, "") on a DictReader row. -/
def rowGet (row : List (String × String)) (k : String) : String :=
  ((row.find? (fun p => p.1 == k)).map Prod.snd).getD ""

/-- The registration record built from one CSV row. -/
structure RowData where
  email : String
  password : String
  first_name : String
  last_name : String
  zip_code : String
deriving DecidableEq

/-- A parsed CSV file: header field names and DictReader rows. -/
structure CsvFile where
  fieldnames : List String
  rows : List (List (String × String))
deriving DecidableEq

/-- load_row_by_index (bot.py lines 118-151): reject a negative index, a
missing file, an empty header; resolve the five required columns (any failure
is missing_columns); then fetch the requested row (absent is no_rows), strip
the five values, and reject a row with any empty required value
(missing_values). -/
def load_row_by_index (row_index : Int) (file : Option CsvFile) :
    Option RowData × Option String :=
  if row_index < 0 then (none, some "invalid_index")
  else
    match file with
    | none => (none, some "missing_data")
    | some f =>
      if f.fieldnames = [] then (none, some "missing_header")
      else
        match resolve_column f.fieldnames ["email"],
              resolve_column f.fieldnames ["password", "pass"],
              resolve_column f.fieldnames ["first_name", "firstname", "first"],
              resolve_column f.fieldnames ["last_name", "lastname", "last"],
              resolve_column f.fieldnames ["zip_code", "zipcode", "zip"] with
        | some ek, some pk, some fk, some lk, some zk =>
          match f.rows.get? row_index.toNat with
          | none => (none, some "no_rows")
          | some row =>
            if pyStrip (rowGet row ek) = "" ∨ pyStrip (rowGet row pk) = ""
               ∨ pyStrip (rowGet row fk) = "" ∨ pyStrip (rowGet row lk) = ""
               ∨ pyStrip (rowGet row zk) = "" then (none, some "missing_values")
            else
              (some ⟨pyStrip (rowGet row ek), pyStrip (rowGet row pk),
                     pyStrip (rowGet row fk), pyStrip (rowGet row lk),
                     pyStrip (rowGet row zk)⟩, none)
        | _, _, _, _, _ => (none, some "missing_columns")

/-- C8: the CSV loader resolves required columns case- and
spacing-insensitively and reports distinct error signals: no_rows when the
index is beyond the last row, missing_values when a required field of the
selected row strips to empty, and missing_columns when the
password-equivalent column is absent from the header. -/
theorem c8_load_row_error_signals :
    (∀ (idx : Int) (f : CsvFile) ek pk fk lk zk, 0 ≤ idx → f.fieldnames ≠ [] →
      resolve_column f.fieldnames ["email"] = some ek →
      resolve_column f.fieldnames ["password", "pass"] = some pk →
      resolve_column f.fieldnames ["first_name", "firstname", "first"] = some fk →
      resolve_column f.fieldnames ["last_name", "lastname", "last"] = some lk →
      resolve_column f.fieldnames ["zip_code", "zipcode", "zip"] = some zk →
      f.rows.length ≤ idx.toNat →
      load_row_by_index idx (some f) = (none, some "no_rows"))
    ∧ (∀ (idx : Int) (f : CsvFile) ek pk fk lk zk row, 0 ≤ idx → f.fieldnames ≠ [] →
      resolve_column f.fieldnames ["email"] = some ek →
      resolve_column f.fieldnames ["password", "pass"] = some pk →
      resolve_column f.fieldnames ["first_name", "firstname", "first"] = some fk →
      resolve_column f.fieldnames ["last_name", "lastname", "last"] = some lk →
      resolve_column f.fieldnames ["zip_code", "zipcode", "zip"] = some zk →
      f.rows.get? idx.toNat = some row →
      (pyStrip (rowGet row ek) = "" ∨ pyStrip (rowGet row pk) = ""
       ∨ pyStrip (rowGet row fk) = "" ∨ pyStrip (rowGet row lk) = ""
       ∨ pyStrip (rowGet row zk) = "") →
      load_row_by_index idx (some f) = (none, some "missing_values"))
    ∧ (∀ (idx : Int) (f : CsvFile), 0 ≤ idx → f.fieldnames ≠ [] →
      resolve_column f.fieldnames ["password", "pass"] = none →
      load_row_by_index idx (some f) = (none, some "missing_columns"))
    ∧ (∀ (fieldnames : List String) (c n : String), n ∈ fieldnames → n ≠ "" →
      normalize_field n = normalize_field c →
      (resolve_column fieldnames [c]).isSome = true) := by
  refine ⟨?_, ?_, ?_, ?_⟩
  · intro idx f ek pk fk lk zk h0 hne h1 h2 h3 h4 h5 hlen
    have hget : f.rows.get? idx.toNat = none := List.get?_eq_none.mpr hlen
    simp only [List.get?_eq_getElem?] at hget
    simp [load_row_by_index, if_neg (not_lt.mpr h0), hne, h1, h2, h3, h4, h5, hget]
  · intro idx f ek pk fk lk zk row h0 hne h1 h2 h3 h4 h5 hget hempty
    simp only [List.get?_eq_getElem?] at hget
    simp [load_row_by_index, if_neg (not_lt.mpr h0), hne, h1, h2, h3, h4, h5, hget,
      if_pos hempty]
  · intro idx f h0 hne h2
    rcases h1 : resolve_column f.fieldnames ["email"] with _ | ek <;>
      simp [load_row_by_index, if_neg (not_lt.mpr h0), hne, h1, h2]
  · intro fieldnames c n hmem hne hnorm
    have : (lookupNormalized fieldnames (normalize_field c)).isSome = true := by
      rw [Option.isSome_iff_exists]
      have hfind : ∃ x ∈ (fieldnames.filter (fun n => n != "")).reverse,
          (fun n => normalize_field n == normalize_field c) x = true := by
        refine ⟨n, ?_, by simp [hnorm]⟩
        rw [List.mem_reverse, List.mem_filter]
        exact ⟨hmem, by simp [hne]⟩
      obtain ⟨x, hx⟩ := Option.isSome_iff_exists.mp (List.find?_isSome.mpr hfind)
      exact ⟨x, hx⟩
    simp only [resolve_column, List.findSome?]
    rcases hl : lookupNormalized fieldnames (normalize_field c) with _ | v
    · rw [hl] at this; simp at this
    · simp

/-- Witness for c8_load_row_error_signals: an in-range header with
case- and spacing-varied names but an out-of-range row index reports
no_rows. -/
theorem c8_load_row_witness :
    load_row_by_index 0
      (some ⟨["EMAIL", " PASS ", "First Name", "LastName", "Zip-Code"], []⟩)
      = (none, some "no_rows") :=
  c8_load_row_error_signals.1 0
    ⟨["EMAIL", " PASS ", "First Name", "LastName", "Zip-Code"], []⟩
    "EMAIL" " PASS " "First Name" "LastName" "Zip-Code"
    (by decide) (by decide) (by decide) (by decide) (by decide) (by decide)
    (by decide) (by decide)

/-! ## C4 and C5: the OTP retrieval loop get_otp (test-main/utils.py lines 23-94)

The mailbox is modelled as a store of messages (oldest first) with a seen flag
and a delivery address.  The imap_tools fetch call is not part of src/, so its
semantics (criteria filter, reverse=True for newest first, limit) are modelled
from the spec.  Each polling attempt opens a session; a login failure raises
inside the try block of the loop and is swallowed as a failed attempt; each of the
three passes has its own try/except, so a fetch failure only skips that pass.
-/

/-- Lowercase a string at the character level (Python str.lower, ASCII
granularity). -/
def lowerStr (s : String) : String := String.mk (s.data.map Char.toLower)

/-- The helper _is_expected_sender (utils.py lines 32-37): lowercase the sender
(absent treated as empty) and require both marker substrings, the olympics
relay local part and the icloud domain. -/
def is_expected_sender (sender : Option String) : Bool :=
  strContains (lowerStr (sender.getD "")) "noreply_at_email_olympicid_olympics_com_"
  && strContains (lowerStr (sender.getD "")) "@icloud.com"

/-- Pass 1 scan (utils.py lines 45-51): first message with the expected sender
whose body yields a code. -/
def pass1Scan (msgs : List MailMsg) : Option String :=
  msgs.findSome? (fun m => if is_expected_sender m.from_ then extract_otp m else none)

/-- Pass 2 scan (utils.py lines 56-61): first message whose body yields a code;
the sender condition is disabled by the or-True in the source. -/
def pass2Scan (msgs : List MailMsg) : Option String :=
  msgs.findSome? (fun m =>
    match extract_otp m with
    | some otp => if is_expected_sender m.from_ || true then some otp else none
    | none => none)

/-- The keyword filter of pass 3 (utils.py lines 68-79). -/
def keywordMatch (m : MailMsg) : Bool :=
  is_expected_sender (some (lowerStr (m.from_.getD "")))
  || strContains (lowerStr (m.from_.getD "")) "noreply"
  || strContains (lowerStr (m.subject.getD "")) "verify"
  || strContains (lowerStr (m.subject.getD "")) "verification"
  || strContains (lowerStr (m.subject.getD "")) "code"
  || strContains (lowerStr (m.subject.getD "")) "la28"
  || strContains (lowerStr (m.subject.getD "")) "olympic"

/-- Pass 3 scan (utils.py lines 66-83): first keyword-matching message whose
body yields a code. -/
def pass3Scan (msgs : List MailMsg) : Option String :=
  msgs.findSome? (fun m => if keywordMatch m then extract_otp m else none)

/-- A message in the mailbox store: seen flag, delivery address, and the
message content. -/
structure StoredMsg where
  seen : Bool
  toAddr : String
  msg : MailMsg
deriving DecidableEq

/-- Modelled from the spec: imap_tools MailBox.fetch with criteria
AND(seen, to), a limit, and reverse=True — the imap_tools library is not part
of src/.  The store is listed oldest first; reverse=True yields newest first;
the limit truncates after ordering. -/
def fetchMail (store : List StoredMsg) (wantUnseen : Bool)
    (toFilter : Option String) (limit : Nat) : List MailMsg :=
  (((store.filter (fun r =>
      (!wantUnseen || !r.seen)
      && (match toFilter with | none => true | some t => r.toAddr == t))).reverse).take
    limit).map StoredMsg.msg

/-- One open mailbox session: the three fetch results of an attempt, each of
which may raise. -/
structure MailSession where
  fetch1 : Except Unit (List MailMsg)
  fetch2 : Except Unit (List MailMsg)
  fetch3 : Except Unit (List MailMsg)

/-- Run one pass over a fetch result; a raised fetch error is caught by the
own try/except of that pass and yields nothing. -/
def passOf (r : Except Unit (List MailMsg)) (scan : List MailMsg → Option String) :
    Option String :=
  match r with
  | .error _ => none
  | .ok msgs => scan msgs

/-- One polling attempt of get_otp over an open session (utils.py lines 41-85):
pass 1, then pass 2, then pass 3. -/
def get_otp_attempt (ses : MailSession) : Option String :=
  match passOf ses.fetch1 pass1Scan with
  | some otp => some otp
  | none =>
    match passOf ses.fetch2 pass2Scan with
    | some otp => some otp
    | none => passOf ses.fetch3 pass3Scan

/-- The session induced by a mailbox store for a target address: the three
fetch calls of get_otp with the criteria, limits and ordering the source
passes (unseen to target limit 10; all to target limit 25; unseen mailbox-wide
limit 50). -/
def sessionOfStore (store : List StoredMsg) (target : String) : MailSession :=
  ⟨.ok (fetchMail store true (some target) 10),
   .ok (fetchMail store false (some target) 25),
   .ok (fetchMail store true none 50)⟩

/-- Pass 1 as executed against a mailbox store. -/
def get_otp_pass1 (store : List StoredMsg) (target : String) : Option String :=
  pass1Scan (fetchMail store true (some target) 10)

/-- The retry loop of get_otp (utils.py lines 39-94) acting on a stream of
session-open outcomes, one per attempt: a session error is swallowed as a
failed attempt; a found code returns immediately; otherwise sleep delay seconds
and retry.  Returns the result, the number of attempts performed, and the total
seconds slept. -/
def get_otp_loop (env : Nat → Except Unit MailSession) (delay : Nat) :
    Nat → Nat → Option String × Nat × Nat
  | _, 0 => (none, 0, 0)
  | i, n + 1 =>
    match env i with
    | .error _ =>
      match get_otp_loop env delay (i + 1) n with
      | (r, a, s) => (r, a + 1, s + delay)
    | .ok ses =>
      match get_otp_attempt ses with
      | some otp => (some otp, 1, 0)
      | none =>
        match get_otp_loop env delay (i + 1) n with
        | (r, a, s) => (r, a + 1, s + delay)

/-- get_otp with explicit retries and delay (source defaults: retries=10,
delay=5). -/
def get_otp (env : Nat → Except Unit MailSession) (retries delay : Nat) :
    Option String × Nat × Nat :=
  get_otp_loop env delay 0 retries

/-- get_otp at its default arguments retries=10, delay=5. -/
def get_otp_default (env : Nat → Except Unit MailSession) :
    Option String × Nat × Nat :=
  get_otp env 10 5

/-- An attempt that fails: the session raises (swallowed) or the three passes
find nothing. -/
def attemptYieldsNone (a : Except Unit MailSession) : Bool :=
  match a with
  | .error _ => true
  | .ok ses => (get_otp_attempt ses).isNone

theorem get_otp_loop_exhaust (env : Nat → Except Unit MailSession) (delay : Nat) :
    ∀ n i, (∀ k, i ≤ k → k < i + n → attemptYieldsNone (env k) = true) →
      get_otp_loop env delay i n = (none, n, n * delay) := by
  intro n
  induction n with
  | zero => intro i _; simp [get_otp_loop]
  | succ m ih =>
    intro i h
    have hrec := ih (i + 1) (fun k hk1 hk2 => h k (by omega) (by omega))
    have hi := h i (Nat.le_refl i) (by omega)
    cases he : env i with
    | error e => simp [get_otp_loop, he, hrec, Nat.succ_mul]
    | ok ses =>
      rw [he] at hi
      have : get_otp_attempt ses = none := Option.isNone_iff_eq_none.mp hi
      simp [get_otp_loop, he, this, hrec, Nat.succ_mul]

/-- C4: when no attempt of the OTP retrieval loop yields a code — including
attempts whose mailbox session raises, which are swallowed as failed attempts —
the loop performs exactly retries attempts, sleeps delay seconds after each,
and returns the not-found signal; with the source defaults retries=10 and
delay=5 that is exactly 10 attempts and 50 seconds of waiting. -/
theorem c4_get_otp_exhausts_all_attempts :
    (∀ (env : Nat → Except Unit MailSession) retries delay,
      (∀ k, k < retries → attemptYieldsNone (env k) = true) →
      get_otp env retries delay = (none, retries, retries * delay))
    ∧ (∀ env : Nat → Except Unit MailSession,
      (∀ k, k < 10 → attemptYieldsNone (env k) = true) →
      get_otp_default env = (none, 10, 50)) := by
  constructor
  · intro env retries delay h
    exact get_otp_loop_exhaust env delay retries 0 (fun k _ hk2 => h k (by omega))
  · intro env h
    exact get_otp_loop_exhaust env 5 10 0 (fun k _ hk2 => h k (by omega))

/-- Witness for c4_get_otp_exhausts_all_attempts: a mailbox whose session
always raises is retried 10 times, 5 seconds apart, and reports failure. -/
theorem c4_get_otp_witness :
    get_otp_default (fun _ => .error ()) = (none, 10, 50) :=
  c4_get_otp_exhausts_all_attempts.2 (fun _ => .error ()) (fun _ _ => rfl)

/-- C5 counterexample: the pass-1 sender test accepts two distinct sender
strings, so acceptance is not equality with any single exact expected-sender
string — the source tests substring containment of two markers, not exact
equality. -/
theorem c5_counterexample_exact_sender :
    ¬ ∃ S : String, ∀ sender : String,
      is_expected_sender (some sender) = true ↔ sender = S := by
  rintro ⟨S, h⟩
  have h1 : ("noreply_at_email_olympicid_olympics_com_a@icloud.com" : String) = S :=
    (h _).mp (by decide)
  have h2 : ("xnoreply_at_email_olympicid_olympics_com_a@icloud.com" : String) = S :=
    (h _).mp (by decide)
  exact absurd (h1.trans h2.symm) (by decide)

/-- C5 (amended): pass 1 of a get_otp attempt considers only the 10 newest
unread messages addressed to the target email, and accepts a message only if
its lowercased sender contains both expected-sender markers (the olympics
relay local part and the icloud domain) and its body yields a code. -/
theorem c5_pass1_candidates_and_sender :
    (∀ (store : List StoredMsg) (target : String),
      (fetchMail store true (some target) 10).length ≤ 10)
    ∧ (∀ (store : List StoredMsg) (target : String) m,
      m ∈ fetchMail store true (some target) 10 →
      ∃ r ∈ store, r.seen = false ∧ r.toAddr = target ∧ r.msg = m)
    ∧ (∀ (store : List StoredMsg) (target : String) otp,
      get_otp_pass1 store target = some otp →
      ∃ m ∈ fetchMail store true (some target) 10,
        is_expected_sender m.from_ = true ∧ extract_otp m = some otp) := by
  refine ⟨?_, ?_, ?_⟩
  · intro store target
    simp [fetchMail, List.length_take]
  · intro store target m hm
    simp only [fetchMail, List.mem_map] at hm
    obtain ⟨r, hr, hrm⟩ := hm
    have hr' : r ∈ (store.filter (fun r =>
        (!true || !r.seen) && (match some target with
          | none => true | some t => r.toAddr == t))).reverse :=
      List.mem_of_mem_take hr
    rw [List.mem_reverse, List.mem_filter] at hr'
    obtain ⟨hmem, hpred⟩ := hr'
    simp only [Bool.not_true, Bool.false_or, Bool.and_eq_true, Bool.not_eq_true',
      beq_iff_eq] at hpred
    exact ⟨r, hmem, hpred.1, hpred.2, hrm⟩
  · intro store target otp h
    obtain ⟨m, hm, hf⟩ := List.exists_of_findSome?_eq_some h
    by_cases hs : is_expected_sender m.from_ = true
    · rw [if_pos hs] at hf
      exact ⟨m, hm, hs, hf⟩
    · rw [if_neg hs] at hf
      cases hf

/-- Witness for c5_pass1_candidates_and_sender: the acceptance clause applied
to a concrete store in which pass 1 finds a code. -/
theorem c5_pass1_witness :
    ∃ m ∈ fetchMail
        [⟨false, "u@x.com",
          ⟨some "noreply_at_email_olympicid_olympics_com_a@icloud.com", none,
           some "code 123456 here", none⟩⟩]
        true (some "u@x.com") 10,
      is_expected_sender m.from_ = true ∧ extract_otp m = some "123456" :=
  c5_pass1_candidates_and_sender.2.2
    [⟨false, "u@x.com",
      ⟨some "noreply_at_email_olympicid_olympics_com_a@icloud.com", none,
       some "code 123456 here", none⟩⟩]
    "u@x.com" "123456" (by decide)

/-! ## C6: the form-interaction operations (bot.py lines 192-397, 662-718)

Each operation is embedded as its control flow over an environment of
primitive browser-call outcomes, in an Except monad: an error value is an
exception that the operation lets escape to its caller.  human_pause and
human_mouse_move swallow everything internally (their bodies are fully wrapped
in try/except) and are therefore not part of the environments.
-/

/-- A Python try/except around a block: a raised error runs the handler. -/
def pyTry (body : Except Unit α) (handler : Except Unit α) : Except Unit α :=
  match body with
  | .ok a => .ok a
  | .error _ => handler

/-- Whether an Except value is a normal return. -/
def exceptOk : Except Unit α → Bool
  | .ok _ => true
  | .error _ => false

/-- Primitive outcomes met by human_click (bot.py lines 192-207): the wait,
the pre-click sleep, the primary click, the post-click sleep, and the bare
fallback click of the except branch. -/
structure ClickEnv where
  wait : Except Unit Unit
  sleepPre : Except Unit Unit
  click1 : Except Unit Unit
  sleepPost : Except Unit Unit
  click2 : Except Unit Unit

/-- human_click (bot.py lines 192-207): the jittered click inside a try; on
any failure a bare click; on failure of that, print and return False. -/
def human_click (e : ClickEnv) : Except Unit Bool :=
  pyTry (do e.wait; e.sleepPre; e.click1; e.sleepPost; pure true)
    (pyTry (do e.click2; pure true) (.ok false))

/-- Primitive outcomes met by select_option_by_text_strict (bot.py lines
210-244): wait, the native select call, its follow-up sleep, and the
script-evaluation fallback.  The evaluation result is some b when the script
returned a dict whose ok field is b, none for a non-dict result. -/
structure StrictEnv where
  wait : Except Unit Unit
  nativeSel : Except Unit Unit
  sleepSel : Except Unit Unit
  evaluate : Except Unit (Option Bool)

/-- select_option_by_text_strict (bot.py lines 210-244): native path inside a
try/except pass; then the script-evaluation fallback, which is outside any
handler. -/
def select_option_by_text_strict (e : StrictEnv) : Except Unit Bool :=
  match pyTry (do e.wait; e.nativeSel; e.sleepSel; pure true) (.ok false) with
  | .ok true => .ok true
  | _ => e.evaluate.map (fun v => v.getD false)

/-- Left-to-right non-overlapping replacement of a pattern in a character
list, fuel-bounded by the list length. -/
def replaceSubAux : Nat → List Char → List Char → List Char → List Char
  | 0, l, _, _ => l
  | fuel + 1, l, pat, rep =>
    if pat.isPrefixOf l then rep ++ replaceSubAux fuel (l.drop pat.length) pat rep
    else
      match l with
      | [] => []
      | c :: cs => c :: replaceSubAux fuel cs pat rep

/-- Python str.replace for a non-empty pattern. -/
def strReplace (s pat rep : String) : String :=
  String.mk (replaceSubAux s.data.length s.data pat.data rep.data)

/-- The helper _alt_text_candidates of select_option_by_text_safe (bot.py
lines 248-263): the stripped text, its ampersand-to-and variant, and its
and-to-ampersand variant, deduplicated preserving order. -/
def alt_text_candidates (t0 : String) : List String :=
  if pyStrip t0 = "" then []
  else
    ((([pyStrip t0]
        ++ (if String.mk (ampToAnd (pyStrip t0).data) ≠ pyStrip t0
            then [String.mk (ampToAnd (pyStrip t0).data)] else [])
        ++ (if strReplace (pyStrip t0) " and " " & " ≠ pyStrip t0
            then [strReplace (pyStrip t0) " and " " & "] else []))).foldl
      (fun out a => if a ∈ out then out else out ++ [a]) [])

/-- Primitive outcomes met by select_option_by_text_safe (bot.py lines
247-324): wait, the per-candidate native select success (a raising or failing
candidate is swallowed by the inner try and the loop continues), and the
script-evaluation fallback. -/
structure SafeEnv where
  wait : Except Unit Unit
  candOk : String → Bool
  evaluate : Except Unit (Option Bool)

/-- The control flow of select_option_by_text_safe (bot.py lines 247-324)
around its matcher: try the native candidates if the wait succeeded; if none
succeeds, run the script-evaluation fallback, which is outside any handler. -/
def select_option_by_text_safe_ctrl (e : SafeEnv) (text : String) :
    Except Unit Bool :=
  if exceptOk e.wait && (alt_text_candidates text).any e.candOk then .ok true
  else e.evaluate.map (fun v => v.getD false)

/-- Primitive outcomes met by click_add_another_for_select (bot.py lines
327-397): wait (whose failure returns False), the script evaluation, and the
post-success sleep, the latter two outside any handler. -/
structure AddEnv where
  wait : Except Unit Unit
  evaluate : Except Unit (Option Bool)
  sleepPost : Except Unit Unit

/-- click_add_another_for_select (bot.py lines 327-397). -/
def click_add_another_for_select (e : AddEnv) : Except Unit Bool :=
  match e.wait with
  | .error _ => .ok false
  | .ok _ =>
    match e.evaluate with
    | .error u => .error u
    | .ok v =>
      if v.getD false then
        match e.sleepPost with
        | .error u => .error u
        | .ok _ => .ok true
      else .ok false

/-- Primitive outcomes met by human_type (bot.py lines 662-718): wait, the
script injection, the fallback click and type of the not-result branch, and
the type call of the except branch (itself wrapped in a bare try/except
pass). -/
structure TypeEnv where
  wait : Except Unit Unit
  evaluate : Except Unit Bool
  clickFb : Except Unit Unit
  typeFb : Except Unit Unit
  typeExc : Except Unit Unit

/-- human_type (bot.py lines 662-718): everything inside a try; the except
branch retries the bare type call inside its own try/except pass.  The
function returns nothing; it never raises. -/
def human_type (e : TypeEnv) : Except Unit Unit :=
  pyTry
    (do e.wait
        let r ← e.evaluate
        if r then pure () else do e.clickFb; e.typeFb)
    (pyTry e.typeExc (.ok ()))

/-- C6 counterexample: with a failed wait and a raising script evaluation,
select_option_by_text_strict propagates the exception to its caller instead
of reporting False — the evaluation call sits outside every handler. -/
theorem c6_counterexample_select_strict_raises :
    select_option_by_text_strict ⟨.error (), .ok (), .ok (), .error ()⟩
      = .error () := rfl

/-- C6 (amended): human_click and human_type never propagate an exception for
any primitive outcomes; select_option_by_text_strict,
select_option_by_text_safe and click_add_another_for_select report failure as
False except that an exception of the unguarded script-evaluation call (and,
for the add-another trigger, of its post-success sleep) propagates to the
caller. -/
theorem c6_failures_reported_not_raised :
    (∀ e : ClickEnv, ∃ b, human_click e = .ok b)
    ∧ (∀ e : TypeEnv, human_type e = .ok ())
    ∧ (∀ e : StrictEnv,
        (∃ b, select_option_by_text_strict e = .ok b) ∨ e.evaluate = .error ())
    ∧ (∀ (e : SafeEnv) (text : String),
        (∃ b, select_option_by_text_safe_ctrl e text = .ok b)
        ∨ e.evaluate = .error ())
    ∧ (∀ e : AddEnv,
        (∃ b, click_add_another_for_select e = .ok b)
        ∨ e.evaluate = .error () ∨ e.sleepPost = .error ()) := by
  refine ⟨?_, ?_, ?_, ?_, ?_⟩
  · rintro ⟨w, s1, c1, s2, c2⟩
    cases w <;> cases s1 <;> cases c1 <;> cases s2 <;> cases c2 <;> exact ⟨_, rfl⟩
  · rintro ⟨w, ev, cf, tf, te⟩
    cases w <;> rcases ev with _ | b <;> try cases b
    all_goals cases cf <;> cases tf <;> cases te <;> rfl
  · rintro ⟨w, n, s, ev⟩
    rcases ev with u | v
    · cases u; exact Or.inr rfl
    · refine Or.inl ?_
      cases w <;> cases n <;> cases s <;> exact ⟨_, rfl⟩
  · rintro ⟨w, c, ev⟩ text
    by_cases hc : (exceptOk w && (alt_text_candidates text).any c) = true
    · exact Or.inl ⟨true, by simp [select_option_by_text_safe_ctrl, hc]⟩
    · rcases ev with u | v
      · cases u; exact Or.inr rfl
      · exact Or.inl ⟨v.getD false,
          by simp [select_option_by_text_safe_ctrl, hc, Except.map]⟩
  · rintro ⟨w, ev, sp⟩
    rcases w with u | u
    · exact Or.inl ⟨false, rfl⟩
    · rcases ev with u' | v
      · cases u'; exact Or.inr (Or.inl rfl)
      · by_cases hv : v.getD false = true
        · rcases sp with u'' | u''
          · cases u''; exact Or.inr (Or.inr rfl)
          · exact Or.inl ⟨true, by simp [click_add_another_for_select, hv]⟩
        · exact Or.inl ⟨false, by simp [click_add_another_for_select, hv]⟩

/-- Witness for c6_failures_reported_not_raised: human_type with every
primitive raising still returns normally. -/
theorem c6_human_type_witness :
    human_type ⟨.error (), .error (), .error (), .error (), .error ()⟩ = .ok () :=
  c6_failures_reported_not_raised.2.1 ⟨.error (), .error (), .error (), .error (), .error ()⟩

/-! ## C9: the run_registration exception boundary (bot.py lines 721-1083)

run_registration builds the browser session (create_sb), enters it with a
with-statement, and only inside the with-block opens a try whose except
Exception clause prints and returns False.  Python except Exception does not
catch BaseException (e.g. KeyboardInterrupt), so errors are modelled with two
kinds.  The with-statement runs the session exit on every path; an exit error
propagates.
-/

/-- A raised Python error: an Exception, or a BaseException that except
Exception does not catch. -/
inductive PyErr
  | exc
  | baseExc
deriving DecidableEq

/-- The effectful phases of run_registration: create_sb() (bot.py line 733,
outside the with and the try), entering the with-block (line 734), the whole
body of the try (lines 736-1079), and the session exit run by the
with-statement. -/
structure RunEnv where
  createSb : Except PyErr Unit
  enter : Except PyErr Unit
  body : Except PyErr Bool
  exitSession : Except PyErr Unit

/-- run_registration (bot.py lines 721-1083): session creation and entry are
unprotected; inside the with, Exceptions of the body are converted to a False
return (lines 1081-1083); BaseExceptions pass through; the session exit runs
in every case and its error propagates. -/
def run_registration (e : RunEnv) : Except PyErr Bool :=
  match e.createSb with
  | .error er => .error er
  | .ok _ =>
    match e.enter with
    | .error er => .error er
    | .ok _ =>
      let afterTry : Except PyErr Bool :=
        match e.body with
        | .ok b => .ok b
        | .error .exc => .ok false
        | .error .baseExc => .error .baseExc
      match e.exitSession with
      | .error er => .error er
      | .ok _ => afterTry

/-- C9 counterexample: an exception raised while creating the browser session
(create_sb is called before the with and the try) propagates out of
run_registration instead of being converted to a False result. -/
theorem c9_counterexample_create_raises :
    run_registration ⟨.error .exc, .ok (), .ok true, .ok ()⟩ = .error .exc := rfl

/-- C9 (amended): any Exception raised inside the with-session body of
run_registration is caught at the boundary and converted to a logged False
result, and a normal body result passes through; exceptions raised while
creating, entering or exiting the browser session, and BaseExceptions, still
propagate. -/
theorem c9_boundary_converts_body_exceptions :
    (∀ e : RunEnv, e.createSb = .ok () → e.enter = .ok () → e.exitSession = .ok () →
      e.body = .error .exc → run_registration e = .ok false)
    ∧ (∀ (e : RunEnv) (b : Bool), e.createSb = .ok () → e.enter = .ok () →
      e.exitSession = .ok () → e.body = .ok b → run_registration e = .ok b) := by
  constructor
  · intro e h1 h2 h3 h4
    simp [run_registration, h1, h2, h3, h4]
  · intro e b h1 h2 h3 h4
    simp [run_registration, h1, h2, h3, h4]

/-- Witness for c9_boundary_converts_body_exceptions: a body that raises an
Exception yields the False result. -/
theorem c9_boundary_witness :
    run_registration ⟨.ok (), .ok (), .error .exc, .ok ()⟩ = .ok false :=
  c9_boundary_converts_body_exceptions.1 ⟨.ok (), .ok (), .error .exc, .ok ()⟩
    rfl rfl rfl rfl

/-! ## C10: the empty-code guard of enter_otp_code (bot.py lines 400-403)

enter_otp_code strips its code argument (absent treated as empty) and returns
False before building the fill script and before its 0.8s-stepped retry loop.
The loop is embedded with an action trace: each iteration records a script
evaluation and a sleep; exhaustion records the diagnostic dump.
-/

/-- An observable action of enter_otp_code: a page-script evaluation, a sleep,
or the diagnostic dump after exhaustion. -/
inductive OtpAct
  | evalAct
  | sleepAct
  | diagAct
deriving DecidableEq

/-- The retry loop of enter_otp_code (bot.py lines 501-519): evaluate the fill
script (a raise is caught and treated as no result), return True on an ok
result, otherwise sleep 0.8s and retry until the time budget (modelled as
tick fuel) runs out, then dump diagnostics and return False. -/
def enterOtpLoop (outcomes : Nat → Except Unit (Option Bool)) :
    Nat → Nat → Bool × List OtpAct
  | _, 0 => (false, [OtpAct.diagAct])
  | i, n + 1 =>
    match outcomes i with
    | .ok (some true) => (true, [OtpAct.evalAct])
    | _ =>
      match enterOtpLoop outcomes (i + 1) n with
      | (b, acts) => (b, OtpAct.evalAct :: OtpAct.sleepAct :: acts)

/-- enter_otp_code (bot.py lines 400-521): strip the code (None treated as
empty); an empty result returns False at once; otherwise run the retry
loop. -/
def enter_otp_code (code : Option String) (outcomes : Nat → Except Unit (Option Bool))
    (ticks : Nat) : Bool × List OtpAct :=
  if pyStrip (code.getD "") = "" then (false, [])
  else enterOtpLoop outcomes 0 ticks

/-- C10: for every code argument that is absent, empty or whitespace-only,
enter_otp_code returns False immediately with an empty action trace: no page
script is evaluated, no sleep happens, and the retry loop is never entered. -/
theorem c10_empty_code_short_circuit :
    ∀ (code : Option String) (outcomes : Nat → Except Unit (Option Bool)) (ticks : Nat),
      pyStrip (code.getD "") = "" →
      enter_otp_code code outcomes ticks = (false, []) := by
  intro code outcomes ticks h
  simp [enter_otp_code, h]

/-- Witness for c10_empty_code_short_circuit: a whitespace-only code is
rejected without any action even with a large time budget and an
always-succeeding page script. -/
theorem c10_empty_code_witness :
    enter_otp_code (some "   ") (fun _ => .ok (some true)) 75 = (false, []) :=
  c10_empty_code_short_circuit (some "   ") (fun _ => .ok (some true)) 75 (by decide)

/-! ## C3: preference selection and the no-repeat invariant
(bot.py lines 594-659 and 961-1020)

select_random_option_in_nth_named_select is embedded over the option texts
(with their disabled flags) that its page script reads, a shuffle oracle
(perm), and a per-candidate success oracle for the inner
select_option_by_text_safe calls.  The sport-preference loop of
run_registration accumulates accepted labels in selected_sports and passes
them as the exclusion list of the fallback; the team-preference loop has no
fallback.
-/

/-- The placeholder option texts skipped by
select_random_option_in_nth_named_select (bot.py line 642). -/
def placeholderTexts : List String :=
  ["select", "select one", "please select", "-", "--"]

/-- The exclusion set built from exclude_texts (bot.py line 595): stripped
forms of the truthy entries whose strip is non-empty. -/
def excludeSetOf (exclude : List String) : List String :=
  (exclude.filter (fun t => t != "" && pyStrip t != "")).map pyStrip

/-- The cleaning pass of select_random_option_in_nth_named_select (bot.py
lines 636-648): strip each option text, skip empties, placeholders, excluded
labels and disabled options. -/
def cleanOptions (opts : List (String × Bool)) (excludeSet : List String) :
    List String :=
  opts.filterMap (fun ob =>
    if pyStrip ob.1 = "" then none
    else if lowerStr (pyStrip ob.1) ∈ placeholderTexts then none
    else if pyStrip ob.1 ∈ excludeSet then none
    else if ob.2 then none
    else some (pyStrip ob.1))

/-- select_random_option_in_nth_named_select (bot.py lines 594-659): read the
options of the target select (none when the page script fails or the select
is missing or unnamed), clean them against the exclusion set, shuffle, and
return the first of the first ten shuffled candidates that
select_option_by_text_safe accepts. -/
def select_random_option_in_nth_named_select
    (pageOpts : Option (List (String × Bool))) (perm : List String → List String)
    (candOk : String → Bool) (exclude : List String) : Option String :=
  match pageOpts with
  | none => none
  | some opts =>
    if opts = [] then none
    else if cleanOptions opts (excludeSetOf exclude) = [] then none
    else ((perm (cleanOptions opts (excludeSetOf exclude))).take 10).find? candOk

/-- The per-slot environment of the sport-preference loop: the outcome of the
primary select_nth_named_select_option call, the option texts read by the
page script of the fallback, the shuffle, and the per-candidate select
success. -/
structure PrefEnv where
  primaryOk : Nat → String → Bool
  pageOpts : Nat → Option (List (String × Bool))
  perm : Nat → List String → List String
  candOk : Nat → String → Bool

/-- The fallback selection at slot i with the given already-accepted labels as
exclusion list (bot.py lines 985-991). -/
def fallbackAt (env : PrefEnv) (i : Nat) (exclude : List String) : Option String :=
  select_random_option_in_nth_named_select (env.pageOpts i) (env.perm i)
    (env.candOk i) exclude

/-- The sport-preference loop of run_registration (bot.py lines 970-998):
slots are numbered from 1; a successful primary selection appends the list
label, otherwise a successful fallback appends the fallback choice, and the
accumulated list is the exclusion list of the fallback. -/
def sportsLoopAux (env : PrefEnv) : List String → Nat → List String → List String
  | [], _, acc => acc
  | sport :: rest, i, acc =>
    if env.primaryOk i sport then sportsLoopAux env rest (i + 1) (acc ++ [sport])
    else
      match fallbackAt env i acc with
      | some chosen => sportsLoopAux env rest (i + 1) (acc ++ [chosen])
      | none => sportsLoopAux env rest (i + 1) acc

/-- The accepted sport labels of one run over a shuffled sport list. -/
def run_sport_preferences (env : PrefEnv) (sports : List String) : List String :=
  sportsLoopAux env sports 1 []

/-- The olympic_sports list of run_registration (bot.py lines 961-967). -/
def olympic_sports : List String :=
  ["Olympic Opening & Closing Ceremonies", "Basketball",
   "Athletics (Track & Field)", "Swimming", "Tennis"]

/-- The team-preference loop of run_registration (bot.py lines 1000-1020):
no fallback; the accepted set is the sublist of teams whose primary selection
succeeded. -/
def teamLoopAux (primaryOk : Nat → String → Bool) : List String → Nat → List String
  | [], _ => []
  | team :: rest, i =>
    if primaryOk i team then team :: teamLoopAux primaryOk rest (i + 1)
    else teamLoopAux primaryOk rest (i + 1)

/-- The teams list of run_registration (bot.py lines 1000-1004). -/
def teams_list : List String := ["United States of America", "Canada", "Great Britain"]

/-- An environment refuting the C3 invariant: the primary selection fails only
at slot 1, and the fallback there picks Basketball, which the shuffled list
still holds for slot 2. -/
def c3BadEnv : PrefEnv :=
  ⟨fun i _ => !(i == 1),
   fun _ => some [("Basketball", false), ("Swimming", false), ("Tennis", false)],
   fun _ l => l,
   fun _ _ => true⟩

/-- A shuffle of olympic_sports with Basketball in slot 2. -/
def c3Sports : List String :=
  ["Swimming", "Basketball", "Olympic Opening & Closing Ceremonies",
   "Athletics (Track & Field)", "Tennis"]

/-- C3 counterexample: over a shuffle of the olympic sports list, a run in
which slot 1 falls back to a random choice of Basketball and the slot-2 primary
selection of Basketball then succeeds accepts Basketball twice — the primary
path never consults the already-accepted set, so the no-repeat invariant
fails. -/
theorem c3_counterexample_duplicate_label :
    c3Sports.Perm olympic_sports
    ∧ run_sport_preferences c3BadEnv c3Sports
        = ["Basketball", "Basketball", "Olympic Opening & Closing Ceremonies",
           "Athletics (Track & Field)", "Tennis"]
    ∧ ¬ (run_sport_preferences c3BadEnv c3Sports).Nodup := by
  refine ⟨by decide, by decide, by decide⟩

theorem teamLoopAux_subset (primaryOk : Nat → String → Bool) :
    ∀ (teams : List String) (i : Nat), teamLoopAux primaryOk teams i ⊆ teams := by
  intro teams
  induction teams with
  | nil => intro i; rw [teamLoopAux]; exact List.nil_subset []
  | cons t rest ih =>
    intro i x hx
    by_cases h : primaryOk i t = true
    · rw [teamLoopAux, if_pos h] at hx
      rcases List.mem_cons.mp hx with hx' | hx'
      · exact hx' ▸ List.mem_cons_self t rest
      · exact List.mem_cons_of_mem t (ih (i + 1) hx')
    · rw [teamLoopAux, if_neg h] at hx
      exact List.mem_cons_of_mem t (ih (i + 1) hx)

theorem sportsLoopAux_all_primary (env : PrefEnv)
    (h : ∀ i s, env.primaryOk i s = true) :
    ∀ (sports : List String) (i : Nat) (acc : List String),
      sportsLoopAux env sports i acc = acc ++ sports := by
  intro sports
  induction sports with
  | nil => intro i acc; simp [sportsLoopAux]
  | cons s rest ih =>
    intro i acc
    rw [sportsLoopAux, if_pos (h i s), ih (i + 1) (acc ++ [s])]
    simp

/-- C3 (amended): the random fallback excludes already-accepted labels from
its candidate pool, so a fallback-accepted label never equals the stripped
form of any label already accepted for the group; and in a run where every
slot is accepted through the primary path the accepted set is exactly the
distinct shuffled preference list, so no label repeats; the team loop, which
has no fallback, accepts a duplicate-free set whenever its input list is
duplicate-free.  (A primary acceptance may, however, repeat a label accepted
earlier by the fallback, as the counterexample shows.) -/
theorem c3_no_repeat_amended :
    (∀ (env : PrefEnv) (i : Nat) (acc : List String) (chosen : String),
      (∀ l, env.perm i l ⊆ l) →
      fallbackAt env i acc = some chosen →
      chosen ∉ acc.map pyStrip)
    ∧ (∀ (env : PrefEnv) (sports : List String),
      (∀ i s, env.primaryOk i s = true) →
      run_sport_preferences env sports = sports)
    ∧ (∀ (primaryOk : Nat → String → Bool) (teams : List String) (i : Nat),
      teams.Nodup → (teamLoopAux primaryOk teams i).Nodup) := by
  refine ⟨?_, ?_, ?_⟩
  · intro env i acc chosen hperm hfb
    rw [fallbackAt] at hfb
    cases hpo : env.pageOpts i with
    | none =>
      rw [hpo, select_random_option_in_nth_named_select] at hfb
      cases hfb
    | some opts =>
      rw [hpo, select_random_option_in_nth_named_select] at hfb
      by_cases hopts : opts = []
      · rw [if_pos hopts] at hfb; cases hfb
      · rw [if_neg hopts] at hfb
        by_cases hclean : cleanOptions opts (excludeSetOf acc) = []
        · rw [if_pos hclean] at hfb; cases hfb
        · rw [if_neg hclean] at hfb
          have hmem10 := List.mem_of_find?_eq_some hfb
          have hmemperm := List.mem_of_mem_take hmem10
          have hmemclean : chosen ∈ cleanOptions opts (excludeSetOf acc) :=
            hperm _ hmemperm
          rw [cleanOptions, List.mem_filterMap] at hmemclean
          obtain ⟨ob, _, hob⟩ := hmemclean
          by_cases h1 : pyStrip ob.1 = ""
          · rw [if_pos h1] at hob; cases hob
          · rw [if_neg h1] at hob
            by_cases h2 : lowerStr (pyStrip ob.1) ∈ placeholderTexts
            · rw [if_pos h2] at hob; cases hob
            · rw [if_neg h2] at hob
              by_cases h3 : pyStrip ob.1 ∈ excludeSetOf acc
              · rw [if_pos h3] at hob; cases hob
              · rw [if_neg h3] at hob
                by_cases h4 : ob.2 = true
                · rw [if_pos h4] at hob; cases hob
                · rw [if_neg h4] at hob
                  cases hob
                  intro hmem
                  rw [List.mem_map] at hmem
                  obtain ⟨e, he, hes⟩ := hmem
                  by_cases hse : pyStrip e = ""
                  · exact h1 (hes ▸ hse)
                  · apply h3
                    rw [← hes]
                    rw [excludeSetOf, List.mem_map]
                    refine ⟨e, ?_, rfl⟩
                    rw [List.mem_filter]
                    refine ⟨he, ?_⟩
                    have hene : e ≠ "" := by
                      intro h
                      apply hse
                      rw [h]
                      rfl
                    simp [hene, hse]
  · intro env sports h
    exact sportsLoopAux_all_primary env h sports 1 []
  · intro primaryOk teams
    induction teams with
    | nil => intro i _; simp [teamLoopAux]
    | cons t rest ih =>
      intro i hnd
      rw [List.nodup_cons] at hnd
      by_cases h : primaryOk i t = true
      · rw [teamLoopAux, if_pos h]
        rw [List.nodup_cons]
        exact ⟨fun hmem => hnd.1 (teamLoopAux_subset primaryOk rest (i + 1) hmem),
               ih (i + 1) hnd.2⟩
      · rw [teamLoopAux, if_neg h]
        exact ih (i + 1) hnd.2

/-- Witness for c3_no_repeat_amended: with every primary selection succeeding,
the accepted set is exactly the olympic sports list. -/
theorem c3_no_repeat_witness :
    run_sport_preferences
      ⟨fun _ _ => true, fun _ => none, fun _ l => l, fun _ _ => true⟩
      olympic_sports = olympic_sports :=
  c3_no_repeat_amended.2.1
    ⟨fun _ _ => true, fun _ => none, fun _ l => l, fun _ _ => true⟩
    olympic_sports (fun _ _ => rfl)

/-! ## C7: select_nth_named_select_option (bot.py lines 524-591)

The rendered select group is modelled as the list of matching selects in DOM
order, each with its name and visibility.  The effect of a successful
add-another click is appending one visible select whose name is given by the
newName oracle of the environment, indexed by the count of already-rendered
selects; the final select_option_by_text_safe outcome is the safeSel oracle.
The run is traced: result, the target name handed to the safe select (none
when the loop gives up), the names of the selects whose add-another trigger
was clicked, and the sleeps in tenths of seconds.
-/

/-- A rendered select of the named group: its name attribute and visibility. -/
structure SInfo where
  name : String
  visible : Bool
deriving DecidableEq

/-- The environment of select_nth_named_select_option: the name each
add-another click gives the appended select, and the outcome of the final
select_option_by_text_safe call per target name. -/
structure NthEnv where
  newName : Nat → String
  safeSel : String → Bool

/-- The page effect of a successful add-another click: one more visible
select appended to the group. -/
def addRow (env : NthEnv) (page : List SInfo) : List SInfo :=
  page ++ [⟨env.newName page.length, true⟩]

/-- The name of the last rendered select (Python selects[-1]). -/
def lastName (page : List SInfo) : String :=
  match page.getLast? with
  | some s => s.name
  | none => ""

/-- The name of the select before the target (Python selects[index-2]). -/
def prevName (page : List SInfo) (i : Nat) : String :=
  match page.get? (i - 2) with
  | some s => s.name
  | none => ""

/-- The target select (Python selects[index-1], which wraps to the last
element when index is 0). -/
def targetAt (page : List SInfo) (i : Nat) : Option SInfo :=
  if i = 0 then page.getLast? else page.get? (i - 1)

/-- Prepend the sleep of one attempt (tenths of seconds) and optional add-click to
a run trace. -/
def consTrace (sleep : Nat) (click : Option String)
    (t : Bool × Option String × List String × List Nat) :
    Bool × Option String × List String × List Nat :=
  (t.1, t.2.1,
   (match click with | some n => n :: t.2.2.1 | none => t.2.2.1),
   sleep :: t.2.2.2)

/-- The attempt loop of select_nth_named_select_option (bot.py lines 549-591):
per attempt, re-list the selects; none rendered sleeps 0.8s; too few rendered
clicks add-another on the last rendered select (when it has a name) and
sleeps 0.9s; an invisible target with index above 1 clicks add-another on the
previous select and sleeps 0.9s; a nameless target sleeps 0.5s; otherwise the
target is handed to select_option_by_text_safe; an exhausted loop returns
False. -/
def select_nth_go (env : NthEnv) (i : Nat) : Nat → List SInfo →
    Bool × Option String × List String × List Nat
  | 0, _ => (false, none, [], [])
  | fuel + 1, page =>
    if page.length = 0 then
      consTrace 8 none (select_nth_go env i fuel page)
    else if page.length < i then
      if lastName page ≠ "" then
        consTrace 9 (some (lastName page)) (select_nth_go env i fuel (addRow env page))
      else consTrace 9 none (select_nth_go env i fuel page)
    else
      match targetAt page i with
      | none => consTrace 5 none (select_nth_go env i fuel page)
      | some tgt =>
        if tgt.visible = false ∧ 1 < i then
          if prevName page i ≠ "" then
            consTrace 9 (some (prevName page i))
              (select_nth_go env i fuel (addRow env page))
          else consTrace 9 none (select_nth_go env i fuel page)
        else if tgt.name = "" then consTrace 5 none (select_nth_go env i fuel page)
        else (env.safeSel tgt.name, some tgt.name, [], [])

/-- select_nth_named_select_option (bot.py lines 524-591): the attempt loop,
bounded to 6 attempts. -/
def select_nth_named_select_option (env : NthEnv) (i : Nat) (page : List SInfo) :
    Bool × Option String × List String × List Nat :=
  select_nth_go env i 6 page

/-- The add-another clicks a growing page produces: one per step, each naming
the then-last rendered select. -/
def expectedClicks (env : NthEnv) : List SInfo → Nat → List String
  | _, 0 => []
  | page, m + 1 => lastName page :: expectedClicks env (addRow env page) m

theorem expectedClicks_length (env : NthEnv) :
    ∀ (m : Nat) (page : List SInfo), (expectedClicks env page m).length = m := by
  intro m
  induction m with
  | zero => intro page; rfl
  | succ m' ih =>
    intro page
    rw [expectedClicks, List.length_cons, ih (addRow env page)]

theorem lastName_ne_of_all (page : List SInfo) (hne : page ≠ [])
    (hvis : ∀ s ∈ page, s.visible = true ∧ s.name ≠ "") : lastName page ≠ "" := by
  rw [lastName, List.getLast?_eq_getLast page hne]
  exact (hvis _ (List.getLast_mem hne)).2

theorem addRow_all (env : NthEnv) (page : List SInfo)
    (hvis : ∀ s ∈ page, s.visible = true ∧ s.name ≠ "")
    (hnn : ∀ j, env.newName j ≠ "") :
    ∀ s ∈ addRow env page, s.visible = true ∧ s.name ≠ "" := by
  intro s hs
  rw [addRow, List.mem_append] at hs
  rcases hs with hs | hs
  · exact hvis s hs
  · rw [List.mem_singleton] at hs
    subst hs
    exact ⟨rfl, hnn page.length⟩

theorem select_nth_go_reach (env : NthEnv) (i : Nat) :
    ∀ (fuel : Nat) (page : List SInfo) (tgt : SInfo),
      (∀ s ∈ page, s.visible = true ∧ s.name ≠ "") →
      1 ≤ i → i ≤ page.length → page.get? (i - 1) = some tgt →
      select_nth_go env i (fuel + 1) page
        = (env.safeSel tgt.name, some tgt.name, [], []) := by
  intro fuel page tgt hvis hi hlen hget
  have hne0 : ¬ page.length = 0 := by omega
  have hnlt : ¬ page.length < i := by omega
  obtain ⟨htv, htn⟩ := hvis tgt (List.get?_mem hget)
  have hta : targetAt page i = some tgt := by
    rw [targetAt, if_neg (by omega : ¬ i = 0)]
    exact hget
  rw [select_nth_go, if_neg hne0, if_neg hnlt]
  simp only [hta]
  rw [if_neg (fun h => by rw [htv] at h; exact absurd h.1 (by decide)), if_neg htn]

theorem select_nth_go_climb (env : NthEnv) (i : Nat) :
    ∀ (m : Nat) (page : List SInfo) (fuel : Nat),
      (∀ s ∈ page, s.visible = true ∧ s.name ≠ "") →
      (∀ j, env.newName j ≠ "") →
      page ≠ [] → page.length + m = i → 1 ≤ m → m + 1 ≤ fuel →
      select_nth_go env i fuel page
        = (env.safeSel (env.newName (i - 1)), some (env.newName (i - 1)),
           expectedClicks env page m, List.replicate m 9) := by
  intro m
  induction m with
  | zero => intro page fuel _ _ _ _ h5 _; omega
  | succ m' ih =>
    intro page fuel hvis hnn hne hlen _ hfuel
    obtain ⟨f, rfl⟩ : ∃ f, fuel = f + 1 := ⟨fuel - 1, by omega⟩
    have hne0 : ¬ page.length = 0 := fun h => hne (List.length_eq_zero.mp h)
    have hlt : page.length < i := by omega
    have hln : lastName page ≠ "" := lastName_ne_of_all page hne hvis
    have hvis' := addRow_all env page hvis hnn
    have hne' : addRow env page ≠ [] := by simp [addRow]
    rcases Nat.eq_zero_or_pos m' with rfl | hm'
    · obtain ⟨f', rfl⟩ : ∃ f', f = f' + 1 := ⟨f - 1, by omega⟩
      have hi1 : i - 1 = page.length := by omega
      have hget : (addRow env page).get? (i - 1) = some ⟨env.newName page.length, true⟩ := by
        rw [hi1, addRow]
        exact List.get?_concat_length page _
      have hreach := select_nth_go_reach env i f' (addRow env page)
        ⟨env.newName page.length, true⟩ hvis' (by omega)
        (by simp [addRow]; omega) hget
      rw [select_nth_go, if_neg hne0, if_pos hlt, if_pos hln, hreach]
      simp [consTrace, expectedClicks, hi1]
    · have hrec := ih (addRow env page) f hvis' hnn hne'
        (by simp [addRow]; omega) hm' (by omega)
      rw [select_nth_go, if_neg hne0, if_pos hlt, if_pos hln, hrec]
      simp [consTrace, expectedClicks, List.replicate_succ]

theorem select_nth_go_climb_fail (env : NthEnv) (i : Nat) :
    ∀ (fuel : Nat) (page : List SInfo),
      (∀ s ∈ page, s.visible = true ∧ s.name ≠ "") →
      (∀ j, env.newName j ≠ "") →
      page ≠ [] → page.length + fuel ≤ i →
      select_nth_go env i fuel page
        = (false, none, expectedClicks env page fuel, List.replicate fuel 9) := by
  intro fuel
  induction fuel with
  | zero => intro page _ _ _ _; simp [select_nth_go, expectedClicks]
  | succ f ih =>
    intro page hvis hnn hne hlen
    have hne0 : ¬ page.length = 0 := fun h => hne (List.length_eq_zero.mp h)
    have hlt : page.length < i := by omega
    have hln : lastName page ≠ "" := lastName_ne_of_all page hne hvis
    rw [select_nth_go, if_neg hne0, if_pos hlt, if_pos hln,
      ih (addRow env page) (addRow_all env page hvis hnn) hnn
        (by simp [addRow]) (by simp [addRow]; omega)]
    simp [consTrace, expectedClicks, List.replicate_succ]

theorem select_nth_go_empty (env : NthEnv) (i : Nat) :
    ∀ fuel, select_nth_go env i fuel [] = (false, none, [], List.replicate fuel 8) := by
  intro fuel
  induction fuel with
  | zero => simp [select_nth_go]
  | succ f ih =>
    rw [select_nth_go, if_pos (show ([] : List SInfo).length = 0 from rfl), ih]
    simp [consTrace, List.replicate_succ]

/-- C7: when fewer selects are rendered than the requested slot index, each
loop attempt clicks the add-another trigger of the last rendered select
exactly once and re-polls after a fixed 0.9s sleep (0.8s when no select is
rendered at all), bounded to 6 total attempts; with at most 5 slots missing
the trigger fires exactly once per missing slot — the click trace has one
entry per missing slot, each the then-last rendered select — after which the
target select is handed to the safe option selection; a larger deficit or an
always-empty group exhausts the 6 attempts and returns the failure signal. -/
theorem c7_add_another_once_per_missing_slot :
    (∀ (env : NthEnv) (page : List SInfo) (i : Nat),
      (∀ s ∈ page, s.visible = true ∧ s.name ≠ "") →
      (∀ j, env.newName j ≠ "") →
      page ≠ [] → page.length < i → i - page.length ≤ 5 →
      select_nth_named_select_option env i page
        = (env.safeSel (env.newName (i - 1)), some (env.newName (i - 1)),
           expectedClicks env page (i - page.length),
           List.replicate (i - page.length) 9))
    ∧ (∀ (env : NthEnv) (page : List SInfo) (i : Nat),
      (∀ s ∈ page, s.visible = true ∧ s.name ≠ "") →
      (∀ j, env.newName j ≠ "") →
      page ≠ [] → page.length + 5 < i →
      select_nth_named_select_option env i page
        = (false, none, expectedClicks env page 6, List.replicate 6 9))
    ∧ (∀ (env : NthEnv) (i : Nat),
      select_nth_named_select_option env i []
        = (false, none, [], List.replicate 6 8))
    ∧ (∀ (env : NthEnv) (page : List SInfo) (m : Nat),
      (expectedClicks env page m).length = m) := by
  refine ⟨?_, ?_, ?_, fun env page m => expectedClicks_length env m page⟩
  · intro env page i hvis hnn hne hlt hm
    exact select_nth_go_climb env i (i - page.length) page 6 hvis hnn hne
      (by omega) (by omega) (by omega)
  · intro env page i hvis hnn hne hlt
    exact select_nth_go_climb_fail env i 6 page hvis hnn hne (by omega)
  · intro env i
    exact select_nth_go_empty env i 6

/-- Witness for c7_add_another_once_per_missing_slot: one rendered select,
slot 3 requested: the trigger fires twice (once on the initial select, once
on the first appended one) and the appended slot-3 select is then selected. -/
theorem c7_add_another_witness :
    select_nth_named_select_option ⟨fun _ => "extra", fun _ => true⟩ 3
      [⟨"first", true⟩]
      = (true, some "extra", ["first", "extra"], [9, 9]) :=
  (c7_add_another_once_per_missing_slot.1 ⟨fun _ => "extra", fun _ => true⟩
    [⟨"first", true⟩] 3 (by decide) (fun _ => (by decide : ("extra" : String) ≠ "")) (by decide)
    (by decide) (by decide)).trans (by rfl)

end Bot
